import Mathlib

/-!
Verification of the character-controller / PhysX adapter layer of
`bevy_prototype_character_controller` (files `src/examples/physx.rs` and
`src/example_utils/utils.rs`).

The per-tick adapter systems are embedded as pure Lean functions:

* an event channel drained in one tick is a `List` of event payloads, in
  emission order (the source iterates `reader.xxx.iter(&events)`);
* `f32` scalars are modelled as `ℚ`; every arithmetic step the adapters
  perform (sums, comparisons, subtraction for the clamp) is mirrored exactly;
* rotations are kept symbolic: the adapters only ever construct
  `Quat::from_rotation_y(yaw)`, so a rotation is either such a yaw rotation
  or an opaque pre-existing orientation;
* a backend body lookup (`physx.scene.get_dynamic(...)`) yields
  `Option DynamicBody`; the source's `.expect("Failed to get dynamic rigid
  body")` panic is modelled by returning `Except.error` with that message;
* a PhysX global pose (`Mat4`) is modelled by its rotation and translation
  components, since the source only builds poses with
  `Mat4::from_rotation_translation` and only reads the translation column
  (`w_axis().truncate()`).
-/

namespace PhysXExample

/-- Three-component vector (glam `Vec3`), with rational scalars standing in
for `f32`. -/
structure Vec3 where
  x : ℚ
  y : ℚ
  z : ℚ
deriving DecidableEq

/-- glam `Vec3::zero()`. -/
def Vec3.zero : Vec3 := ⟨0, 0, 0⟩

/-- Componentwise vector addition (`+` / `+=` on glam `Vec3`). -/
def Vec3.add (a b : Vec3) : Vec3 := ⟨a.x + b.x, a.y + b.y, a.z + b.z⟩

instance : Add Vec3 := ⟨Vec3.add⟩

/-- glam `Vec3::length_squared()`. -/
def Vec3.lengthSquared (v : Vec3) : ℚ := v.x * v.x + v.y * v.y + v.z * v.z

/-- Sum of the event vectors drained in one tick, in emission order
(the `let mut v = Vec3::zero(); for event in reader.iter() { v += **event }`
pattern shared by the translation, impulse and force adapters). -/
def sumEvents (events : List Vec3) : Vec3 :=
  events.foldl (fun acc e => acc + e) Vec3.zero

/-- Rotation value. The adapters only construct `Quat::from_rotation_y`;
`raw` stands for any other orientation a transform or body may carry. -/
inductive Quat where
  | fromRotationY (yaw : ℚ)
  | raw (i : ℕ)
deriving DecidableEq

/-- bevy `Transform`, reduced to the components the adapters touch:
`translate` adds to `translation`, `set_rotation` replaces `rotation`. -/
structure Transform where
  translation : Vec3
  rotation : Quat
deriving DecidableEq

/-- The abstract `CharacterController` component: the two fields the systems
under verification read or write. -/
structure CharacterController where
  velocity : Vec3
  jumping : Bool
deriving DecidableEq

/-- A PhysX global pose (`Mat4` in the source), by its rotation and
translation components; `w_axis().truncate()` reads `translation`. -/
structure Pose where
  rotation : Quat
  translation : Vec3
deriving DecidableEq

/-- The backend-owned state of a dynamic rigid body that the adapter layer
queries or commands through its handle. -/
structure DynamicBody where
  mass : ℚ
  linearVelocity : Vec3
  globalPose : Pose
  inertiaTensor : Vec3
deriving DecidableEq

/-- The panic message of every backend lookup in `physx.rs`
(`.expect("Failed to get dynamic rigid body")`). -/
def lookupFailure : String := "Failed to get dynamic rigid body"

/-- `ForceMode` selector passed to `body.add_force`. -/
inductive ForceMode where
  | impulseMode
  | forceMode
deriving DecidableEq

/-- One `body.add_force(vec, mode, true)` command submitted to the backend. -/
structure AddForceCmd where
  vec : Vec3
  mode : ForceMode
deriving DecidableEq

/-- Result of one `controller_to_physx_kinematic` run for one body:
the position written with `physx_controller.set_position`, the updated
`Transform`, and the updated `CharacterController`. -/
structure KinematicResult where
  physxPosition : Vec3
  transform : Transform
  controller : CharacterController
deriving DecidableEq

/-- `controller_to_physx_kinematic` (src/examples/physx.rs:371-397).
Sums the tick's Translation events, clamps the delta's Y so the resulting
backend position Y is at least `min_y = 0.5 * (1 + scale.y)` (clearing
`jumping` when the clamp engages), writes `position + translation` to the
controller handle and translates the transform by the same delta.
`scaleY` is `character_settings.scale.y()`; `position` is
`physx_controller.get_position()`. -/
def controller_to_physx_kinematic (scaleY : ℚ) (events : List Vec3)
    (position : Vec3) (transform : Transform)
    (controller : CharacterController) : KinematicResult :=
  let translation := sumEvents events
  let min_y := 1/2 * (1 + scaleY)
  let clamped := position.y + translation.y < min_y
  let translation := if clamped then { translation with y := min_y - position.y }
    else translation
  let controller := if clamped then { controller with jumping := false }
    else controller
  { physxPosition := position + translation,
    transform := { transform with translation := transform.translation + translation },
    controller := controller }

/-- `controller_to_physx_dynamic_impulse` (src/examples/physx.rs:399-418).
Sums the tick's Impulse events; only when the sum's squared length exceeds
`1E-6` does it look up the body (panicking if the handle is dead) and submit
one `add_force(impulse, ForceMode::Impulse, true)` command. -/
def controller_to_physx_dynamic_impulse (events : List Vec3)
    (body : Option DynamicBody) : Except String (Option AddForceCmd) :=
  let impulse := sumEvents events
  if impulse.lengthSquared > 1/1000000 then
    match body with
    | none => Except.error lookupFailure
    | some _ => Except.ok (some ⟨impulse, ForceMode.impulseMode⟩)
  else Except.ok none

/-- `controller_to_physx_dynamic_force` (src/examples/physx.rs:420-439).
Identical to the impulse adapter but drains Force events and submits with
`ForceMode::Force`. -/
def controller_to_physx_dynamic_force (events : List Vec3)
    (body : Option DynamicBody) : Except String (Option AddForceCmd) :=
  let force := sumEvents events
  if force.lengthSquared > 1/1000000 then
    match body with
    | none => Except.error lookupFailure
    | some _ => Except.ok (some ⟨force, ForceMode.forceMode⟩)
  else Except.ok none

/-- The `let mut yaw = None; for event in reader.yaws.iter(&yaws)
{ yaw = Some(**event) }` loop shared by both yaw systems: each event
overwrites `yaw`, so the loop keeps the last event of the tick. -/
def lastYaw (events : List ℚ) : Option ℚ :=
  events.foldl (fun _ e => some e) none

/-- `controller_to_physx_kinematic_yaw` (src/examples/physx.rs:441-454).
If at least one Yaw event arrived this tick, sets the yaw-proxy transform's
rotation to `Quat::from_rotation_y(last yaw)`; otherwise leaves the
transform untouched. -/
def controller_to_physx_kinematic_yaw (events : List ℚ)
    (transform : Transform) : Transform :=
  match lastYaw events with
  | some yaw => { transform with rotation := Quat.fromRotationY yaw }
  | none => transform

/-- `controller_to_physx_dynamic_yaw` (src/examples/physx.rs:456-478).
If at least one Yaw event arrived, looks up the body (panicking if the
handle is dead), reads the translation column of its current global pose,
and writes back `Mat4::from_rotation_translation(from_rotation_y(yaw),
translation)`. Returns the pose passed to `set_global_pose`, or `none`
when no backend call was made. -/
def controller_to_physx_dynamic_yaw (events : List ℚ)
    (body : Option DynamicBody) : Except String (Option Pose) :=
  match lastYaw events with
  | none => Except.ok none
  | some yaw =>
    match body with
    | none => Except.error lookupFailure
    | some b =>
      Except.ok (some ⟨Quat.fromRotationY yaw, b.globalPose.translation⟩)

/-- `body_to_velocity` (src/examples/physx.rs:358-369). For a BodyTag
entity with a dynamic handle, looks up the body (panicking if the handle is
dead) and overwrites `controller.velocity` with the backend's linear
velocity. -/
def body_to_velocity (body : Option DynamicBody)
    (controller : CharacterController) : Except String CharacterController :=
  match body with
  | none => Except.error lookupFailure
  | some b => Except.ok { controller with velocity := b.linearVelocity }

/-- `create_mass` (src/examples/physx.rs:344-356), per entity and tick.
`massAttr` is the entity's `Mass` component (`none` = absent). The query is
`Without<Mass, ...>`: an entity carrying `Mass` is not matched, so nothing
happens and no lookup occurs; an entity lacking it has its body looked up
(panicking if the handle is dead) and `Mass::new(body.get_mass())`
inserted. -/
def create_mass (massAttr : Option ℚ) (body : Option DynamicBody) :
    Except String (Option ℚ) :=
  match massAttr with
  | some m => Except.ok (some m)
  | none =>
    match body with
    | none => Except.error lookupFailure
    | some b => Except.ok (some b.mass)

/-- One tick of `create_mass` for one entity whose backend body is live
with state `b`; threads the `Mass` attribute. -/
def create_mass_tick (massAttr : Option ℚ) (b : DynamicBody) : Option ℚ :=
  match create_mass massAttr (some b) with
  | Except.ok m => m
  | Except.error _ => massAttr

/-- Repeated ticks of `create_mass` for one entity; `bodies` lists the
backend body state at each successive tick (so the backend mass may change
between ticks). -/
def create_mass_ticks (bodies : List DynamicBody) (massAttr : Option ℚ) :
    Option ℚ :=
  bodies.foldl create_mass_tick massAttr

/-- `constrain_rotation` (src/examples/physx.rs:327-342), per entity and
tick. `constrained` is the presence of `ConstrainedTag`. The query is
`Without<ConstrainedTag, With<BodyTag, ...>>`: an already-constrained
entity is not matched, so no backend call is made; otherwise the body is
looked up (panicking if the handle is dead), its mass-space inertia tensor
is zeroed, and the tag is attached. Returns the updated body when a
backend call occurred (`none` = no call) and the new tag state. -/
def constrain_rotation (constrained : Bool) (body : Option DynamicBody) :
    Except String (Option DynamicBody × Bool) :=
  if constrained then Except.ok (none, true)
  else
    match body with
    | none => Except.error lookupFailure
    | some b => Except.ok (some { b with inertiaTensor := Vec3.zero }, true)

/-- Per-entity state threaded across ticks of `constrain_rotation`, with a
counter of backend calls made so far. -/
structure ConstrainState where
  body : DynamicBody
  constrained : Bool
  calls : ℕ
deriving DecidableEq

/-- One tick of `constrain_rotation` for one entity with a live backend
body, counting backend calls. -/
def constrain_rotation_tick (s : ConstrainState) : ConstrainState :=
  match constrain_rotation s.constrained (some s.body) with
  | Except.ok (some b2, c) => ⟨b2, c, s.calls + 1⟩
  | Except.ok (none, c) => ⟨s.body, c, s.calls⟩
  | Except.error _ => s

/-- The `ControllerType` strategy enumeration (src/examples/physx.rs:16-23). -/
inductive ControllerType where
  | KinematicTranslation
  | DynamicImpulse
  | DynamicForce
deriving DecidableEq

/-- `ControllerType::variants()` generated by clap's `arg_enum!`. -/
def ControllerType.variants : List String :=
  ["KinematicTranslation", "DynamicImpulse", "DynamicForce"]

/-- ASCII lowercasing of a string, character by character (Rust's
`eq_ignore_ascii_case`, used by clap's case-insensitive matching, compares
strings up to ASCII case). -/
def asciiLower (s : String) : String := String.mk (s.data.map Char.toLower)

/-- Case-insensitive match of a command-line string against the
`ControllerType` variants, as performed both by clap's
`possible_values(&variants()).case_insensitive(true)` validation and by the
`arg_enum!`-generated `FromStr` used through `value_t!` (both compare
ASCII-case-insensitively). -/
def ControllerType.fromStr (s : String) : Option ControllerType :=
  if asciiLower s = "kinematictranslation" then some ControllerType.KinematicTranslation
  else if asciiLower s = "dynamicimpulse" then some ControllerType.DynamicImpulse
  else if asciiLower s = "dynamicforce" then some ControllerType.DynamicForce
  else none

/-- Strategy selection in `main` (src/examples/physx.rs:33-43): clap's
`get_matches` rejects any `<type>` argument not matching a variant
case-insensitively, exiting with a usage error before the app is built;
for an accepted argument `value_t!` parses it with the case-insensitive
`FromStr` (its `unwrap_or(DynamicForce)` fallback is unreachable for an
argument clap accepted). -/
def main_strategy_selection (arg : String) : Except String ControllerType :=
  match ControllerType.fromStr arg with
  | some t => Except.ok t
  | none => Except.error "error: invalid value for type"

/-- `controller_to_kinematic` (src/example_utils/utils.rs:168-188), the
fake-kinematic controller of the non-physics examples: adds every drained
Translation event to `transform.translation`, then, if the resulting
absolute Y is strictly below `0.0`, sets it to `0.0` and clears `jumping`. -/
def controller_to_kinematic (events : List Vec3) (transform : Transform)
    (controller : CharacterController) : Transform × CharacterController :=
  let newTranslation := events.foldl (fun acc e => acc + e) transform.translation
  if newTranslation.y < 0 then
    ({ transform with translation := { newTranslation with y := 0 } },
     { controller with jumping := false })
  else ({ transform with translation := newTranslation }, controller)

/-! ### Helper lemmas -/

@[simp] lemma Vec3.add_def_x (a b : Vec3) : (a + b).x = a.x + b.x := rfl

@[simp] lemma Vec3.add_def_y (a b : Vec3) : (a + b).y = a.y + b.y := rfl

@[simp] lemma Vec3.add_def_z (a b : Vec3) : (a + b).z = a.z + b.z := rfl

@[simp] lemma Vec3.add_mk (a b c d e f : ℚ) :
    (⟨a, b, c⟩ : Vec3) + ⟨d, e, f⟩ = ⟨a + d, b + e, c + f⟩ := rfl

@[simp] lemma Vec3.lengthSquared_mk (a b c : ℚ) :
    Vec3.lengthSquared ⟨a, b, c⟩ = a * a + b * b + c * c := rfl

lemma lastYaw_append_singleton (events : List ℚ) (y : ℚ) :
    lastYaw (events ++ [y]) = some y := by
  simp [lastYaw, List.foldl_append]

/-! ### Claims -/

/-- Claim C1: under the kinematic strategy, `controller_to_physx_kinematic`
sums the tick's Translation events into one delta; when the backend
position's Y plus the delta's Y is below `min_y = 0.5 * (1 + verticalScale)`
it adjusts the delta's Y so the resulting Y equals `min_y` and clears
`jumping`; it writes `position + delta` to the backend controller handle.
From `(0,5,0)` with events `(1,0,0)` then `(0,-2,0)` and min height `1.0`
the final position is `(1,3,0)` with no clamp; from `(0,0.5,0)` with event
`(0,-1,0)` the final position is `(0,1.0,0)` with `jumping` set false. -/
theorem c1_kinematic_translation_clamp :
    (∀ (scaleY : ℚ) (events : List Vec3) (position : Vec3)
        (transform : Transform) (controller : CharacterController),
      (controller_to_physx_kinematic scaleY events position transform
          controller).physxPosition.x = position.x + (sumEvents events).x ∧
      (controller_to_physx_kinematic scaleY events position transform
          controller).physxPosition.z = position.z + (sumEvents events).z ∧
      (controller_to_physx_kinematic scaleY events position transform
          controller).physxPosition.y =
        (if position.y + (sumEvents events).y < 1/2 * (1 + scaleY)
          then 1/2 * (1 + scaleY) else position.y + (sumEvents events).y) ∧
      (controller_to_physx_kinematic scaleY events position transform
          controller).controller.jumping =
        (if position.y + (sumEvents events).y < 1/2 * (1 + scaleY)
          then false else controller.jumping)) ∧
    (controller_to_physx_kinematic 1 [⟨1, 0, 0⟩, ⟨0, -2, 0⟩] ⟨0, 5, 0⟩
        ⟨Vec3.zero, Quat.raw 0⟩ ⟨Vec3.zero, true⟩).physxPosition
      = ⟨1, 3, 0⟩ ∧
    (controller_to_physx_kinematic 1 [⟨1, 0, 0⟩, ⟨0, -2, 0⟩] ⟨0, 5, 0⟩
        ⟨Vec3.zero, Quat.raw 0⟩ ⟨Vec3.zero, true⟩).controller.jumping
      = true ∧
    (controller_to_physx_kinematic 1 [⟨0, -1, 0⟩] ⟨0, 1/2, 0⟩
        ⟨Vec3.zero, Quat.raw 0⟩ ⟨Vec3.zero, true⟩).physxPosition
      = ⟨0, 1, 0⟩ ∧
    (controller_to_physx_kinematic 1 [⟨0, -1, 0⟩] ⟨0, 1/2, 0⟩
        ⟨Vec3.zero, Quat.raw 0⟩ ⟨Vec3.zero, true⟩).controller.jumping
      = false := by
  refine ⟨?_, ?_, ?_, ?_, ?_⟩
  · intro scaleY events position transform controller
    by_cases h : position.y + (sumEvents events).y < 1/2 * (1 + scaleY)
    · refine ⟨?_, ?_, ?_, ?_⟩ <;>
        simp only [controller_to_physx_kinematic, if_pos h, Vec3.add_def_x,
          Vec3.add_def_y, Vec3.add_def_z] <;>
        first
        | rfl
        | ring
    · refine ⟨?_, ?_, ?_, ?_⟩ <;>
        simp only [controller_to_physx_kinematic, if_neg h, Vec3.add_def_x,
          Vec3.add_def_y, Vec3.add_def_z]
  · norm_num [controller_to_physx_kinematic, sumEvents, Vec3.zero]
  · norm_num [controller_to_physx_kinematic, sumEvents, Vec3.zero]
  · norm_num [controller_to_physx_kinematic, sumEvents, Vec3.zero]
  · norm_num [controller_to_physx_kinematic, sumEvents, Vec3.zero]

/-- Claim C2: the dynamic impulse (resp. force) adapter sums the tick's
events; it submits exactly one `add_force` command carrying the sum, with
mode Impulse (resp. Force), exactly when the sum's squared magnitude
exceeds `1e-6`, and submits nothing when the squared magnitude is at most
`1e-6` (in particular at the boundary, e.g. the single event
`(1/1000, 0, 0)` whose squared length is exactly `1e-6`). Two impulse
events `[1,0,0]` and `[0.5,0,0]` in one tick yield the single submitted
impulse `[1.5,0,0]`. -/
theorem c2_dynamic_adapters_epsilon :
    (∀ (events : List Vec3) (b : DynamicBody),
      controller_to_physx_dynamic_impulse events (some b) =
        Except.ok (if (sumEvents events).lengthSquared > 1/1000000
          then some ⟨sumEvents events, ForceMode.impulseMode⟩ else none) ∧
      controller_to_physx_dynamic_force events (some b) =
        Except.ok (if (sumEvents events).lengthSquared > 1/1000000
          then some ⟨sumEvents events, ForceMode.forceMode⟩ else none)) ∧
    (∀ (b : DynamicBody),
      controller_to_physx_dynamic_impulse [⟨1, 0, 0⟩, ⟨1/2, 0, 0⟩] (some b) =
        Except.ok (some ⟨⟨3/2, 0, 0⟩, ForceMode.impulseMode⟩) ∧
      controller_to_physx_dynamic_impulse [⟨1/1000, 0, 0⟩] (some b) =
        Except.ok none ∧
      controller_to_physx_dynamic_force [⟨1/1000, 0, 0⟩] (some b) =
        Except.ok none) := by
  constructor
  · intro events b
    by_cases h : (sumEvents events).lengthSquared > 1/1000000
    · refine ⟨?_, ?_⟩ <;>
        simp only [controller_to_physx_dynamic_impulse,
          controller_to_physx_dynamic_force, if_pos h]
    · refine ⟨?_, ?_⟩ <;>
        simp only [controller_to_physx_dynamic_impulse,
          controller_to_physx_dynamic_force, if_neg h]
  · intro b
    refine ⟨?_, ?_, ?_⟩ <;>
      norm_num [controller_to_physx_dynamic_impulse,
        controller_to_physx_dynamic_force, sumEvents, Vec3.zero]

/-- Claim C3: both yaw synchronizers use only the last Yaw event of the
tick as the absolute target yaw — prepending any earlier events leaves the
result unchanged, and events are never summed — and when no Yaw event
arrived in the tick they change nothing: the kinematic variant returns the
transform untouched and the dynamic variant makes no backend call. -/
theorem c3_yaw_last_wins :
    (∀ (t : Transform), controller_to_physx_kinematic_yaw [] t = t) ∧
    (∀ (b : DynamicBody),
      controller_to_physx_dynamic_yaw [] (some b) = Except.ok none) ∧
    (∀ (events : List ℚ) (y : ℚ) (t : Transform),
      controller_to_physx_kinematic_yaw (events ++ [y]) t =
        controller_to_physx_kinematic_yaw [y] t) ∧
    (∀ (events : List ℚ) (y : ℚ) (t : Transform),
      controller_to_physx_kinematic_yaw (events ++ [y]) t =
        { t with rotation := Quat.fromRotationY y }) ∧
    (∀ (events : List ℚ) (y : ℚ) (body : Option DynamicBody),
      controller_to_physx_dynamic_yaw (events ++ [y]) body =
        controller_to_physx_dynamic_yaw [y] body) := by
  refine ⟨fun t => rfl, fun b => rfl, ?_, ?_, ?_⟩ <;>
    intro events y x <;>
    simp [controller_to_physx_kinematic_yaw, controller_to_physx_dynamic_yaw,
      lastYaw_append_singleton, lastYaw]

/-- Claim C4: whenever the dynamic yaw synchronizer applies a yaw (at least
one Yaw event arrived in the tick), the global pose it writes to the
backend body carries exactly the translation of the pose it just read from
that body, and its rotational component is the pure rotation about Y by
the last yaw value. -/
theorem c4_dynamic_yaw_preserves_translation :
    ∀ (events : List ℚ) (y : ℚ) (b : DynamicBody),
      controller_to_physx_dynamic_yaw (events ++ [y]) (some b) =
        Except.ok (some ⟨Quat.fromRotationY y, b.globalPose.translation⟩) := by
  intro events y b
  simp [controller_to_physx_dynamic_yaw, lastYaw_append_singleton]

/-- Claim C5: Mass Discovery writes the `Mass` attribute exactly once per
dynamic-body entity: an entity already carrying `Mass` is not processed
(same attribute back, no backend lookup — even a dead handle is not
touched), an entity lacking it receives the backend's mass at the time of
that first write, and across any number of further ticks the attribute is
never overwritten even when the backend mass changes. -/
theorem c5_create_mass_write_once :
    (∀ (m : ℚ) (body : Option DynamicBody),
      create_mass (some m) body = Except.ok (some m)) ∧
    (∀ (b : DynamicBody),
      create_mass none (some b) = Except.ok (some b.mass)) ∧
    (∀ (bodies : List DynamicBody) (m : ℚ),
      create_mass_ticks bodies (some m) = some m) ∧
    (∀ (b : DynamicBody) (rest : List DynamicBody),
      create_mass_ticks (b :: rest) none = some b.mass) := by
  have hsome : ∀ (bodies : List DynamicBody) (m : ℚ),
      create_mass_ticks bodies (some m) = some m := by
    intro bodies
    induction bodies with
    | nil => intro m; rfl
    | cons b rest ih =>
      intro m
      simpa [create_mass_ticks, create_mass_tick, create_mass,
        List.foldl_cons] using ih m
  refine ⟨fun m body => rfl, fun b => rfl, hsome, ?_⟩
  intro b rest
  simpa [create_mass_ticks, create_mass_tick, create_mass,
    List.foldl_cons] using hsome rest b.mass

/-- Claim C6: the Rotation Constraint system zeroes a dynamic body's
angular inertia tensor and attaches `ConstrainedTag` exactly once per
entity regardless of tick count: a tick on an already-constrained entity
changes nothing and performs no backend call (even a dead handle is not
touched), and any `n + 1` ticks from an unconstrained entity make exactly
one backend call, zero the inertia tensor, and set the tag. -/
theorem c6_constrain_rotation_once :
    (∀ (b : DynamicBody) (c : ℕ),
      constrain_rotation_tick ⟨b, true, c⟩ = ⟨b, true, c⟩) ∧
    (∀ (body : Option DynamicBody),
      constrain_rotation true body = Except.ok (none, true)) ∧
    (∀ (b : DynamicBody) (n : ℕ),
      Nat.iterate constrain_rotation_tick (n + 1) ⟨b, false, 0⟩ =
        ⟨{ b with inertiaTensor := Vec3.zero }, true, 1⟩) := by
  have hfix : ∀ (n : ℕ) (b : DynamicBody) (c : ℕ),
      Nat.iterate constrain_rotation_tick n ⟨b, true, c⟩ = ⟨b, true, c⟩ := by
    intro n
    induction n with
    | zero => intro b c; rfl
    | succ k ih =>
      intro b c
      rw [Function.iterate_succ_apply]
      exact ih b c
  refine ⟨fun b c => rfl, fun body => rfl, ?_⟩
  intro b n
  rw [Function.iterate_succ_apply]
  exact hfix n { b with inertiaTensor := Vec3.zero } 1

/-- Claim C7: strategy selection at startup accepts exactly the names of
the three `ControllerType` variants, case-insensitively, proceeding with
that strategy, and any unrecognized selection string fails with a
configuration error instead of being silently replaced by a default. -/
theorem c7_strategy_selection :
    ∀ (s : String),
      (asciiLower s = "kinematictranslation" →
        main_strategy_selection s =
          Except.ok ControllerType.KinematicTranslation) ∧
      (asciiLower s = "dynamicimpulse" →
        main_strategy_selection s = Except.ok ControllerType.DynamicImpulse) ∧
      (asciiLower s = "dynamicforce" →
        main_strategy_selection s = Except.ok ControllerType.DynamicForce) ∧
      (asciiLower s ≠ "kinematictranslation" → asciiLower s ≠ "dynamicimpulse" →
        asciiLower s ≠ "dynamicforce" →
        main_strategy_selection s =
          Except.error "error: invalid value for type") := by
  intro s
  refine ⟨?_, ?_, ?_, ?_⟩
  · intro h; simp [main_strategy_selection, ControllerType.fromStr, h]
  · intro h; simp [main_strategy_selection, ControllerType.fromStr, h]
  · intro h; simp [main_strategy_selection, ControllerType.fromStr, h]
  · intro h1 h2 h3
    simp [main_strategy_selection, ControllerType.fromStr, h1, h2, h3]

/-- Witness for C7: the string `DynamicForce` in mixed case selects the
DynamicForce strategy, and the unrecognized string `x` yields the
configuration error. -/
theorem c7_strategy_selection_witness :
    (asciiLower "DynamicForce" = "dynamicforce" ∧
      main_strategy_selection "DynamicForce" =
        Except.ok ControllerType.DynamicForce) ∧
    (asciiLower "x" ≠ "kinematictranslation" ∧ asciiLower "x" ≠ "dynamicimpulse" ∧
      asciiLower "x" ≠ "dynamicforce" ∧
      main_strategy_selection "x" =
        Except.error "error: invalid value for type") :=
  ⟨⟨by decide, (c7_strategy_selection "DynamicForce").2.2.1 (by decide)⟩,
   ⟨by decide, by decide, by decide,
    (c7_strategy_selection "x").2.2.2 (by decide) (by decide) (by decide)⟩⟩

/-- Claim C8 counterexample: the dynamic impulse adapter, run on a tick
with no Impulse events while the entity's handle does not resolve to a
live backend body, completes without failing (no panic is reached, since
the lookup sits inside the branch taken only when the summed vector
exceeds the epsilon) — so a per-tick system whose handle is dead does not
always fail fatally. -/
theorem c8_counterexample_dead_handle_no_panic :
    controller_to_physx_dynamic_impulse [] none = Except.ok none := by
  norm_num [controller_to_physx_dynamic_impulse, sumEvents, Vec3.zero]

/-- Claim C8, amended: a per-tick system whose backend lookup actually
executes fails fatally on an unresolvable handle (the `expect` panic),
never silently skipping: unconditionally for velocity feedback, for mass
discovery on an entity lacking `Mass`, and for rotation constraint on an
unconstrained entity; for the impulse/force adapters exactly when the
summed vector's squared magnitude exceeds `1e-6`; for the dynamic yaw
synchronizer exactly when at least one Yaw event arrived. -/
theorem c8_lookup_failure_fatal_amended :
    (∀ (ctrl : CharacterController),
      body_to_velocity none ctrl = Except.error lookupFailure) ∧
    create_mass none none = Except.error lookupFailure ∧
    constrain_rotation false none = Except.error lookupFailure ∧
    (∀ (events : List Vec3),
      controller_to_physx_dynamic_impulse events none =
        (if (sumEvents events).lengthSquared > 1/1000000
          then Except.error lookupFailure else Except.ok none)) ∧
    (∀ (events : List Vec3),
      controller_to_physx_dynamic_force events none =
        (if (sumEvents events).lengthSquared > 1/1000000
          then Except.error lookupFailure else Except.ok none)) ∧
    (∀ (events : List ℚ) (y : ℚ),
      controller_to_physx_dynamic_yaw (events ++ [y]) none =
        Except.error lookupFailure) ∧
    controller_to_physx_dynamic_yaw [] none = Except.ok none := by
  refine ⟨fun ctrl => rfl, rfl, rfl, ?_, ?_, ?_, rfl⟩
  · intro events
    by_cases h : (sumEvents events).lengthSquared > 1/1000000
    · simp only [controller_to_physx_dynamic_impulse, if_pos h]
    · simp only [controller_to_physx_dynamic_impulse, if_neg h]
  · intro events
    by_cases h : (sumEvents events).lengthSquared > 1/1000000
    · simp only [controller_to_physx_dynamic_force, if_pos h]
    · simp only [controller_to_physx_dynamic_force, if_neg h]
  · intro events y
    simp [controller_to_physx_dynamic_yaw, lastYaw_append_singleton]

/-- Claim C9: velocity feedback overwrites the controller's `velocity`
with the backend's current linear velocity and changes nothing else (in
particular `jumping` is preserved), while the kinematic translation
adapter never writes `velocity`. -/
theorem c9_velocity_feedback :
    (∀ (b : DynamicBody) (ctrl : CharacterController),
      body_to_velocity (some b) ctrl =
        Except.ok ⟨b.linearVelocity, ctrl.jumping⟩) ∧
    (∀ (scaleY : ℚ) (events : List Vec3) (position : Vec3)
        (transform : Transform) (ctrl : CharacterController),
      (controller_to_physx_kinematic scaleY events position transform
          ctrl).controller.velocity = ctrl.velocity) := by
  refine ⟨fun b ctrl => rfl, ?_⟩
  intro scaleY events position transform ctrl
  by_cases h : position.y + (sumEvents events).y < 1/2 * (1 + scaleY)
  · simp only [controller_to_physx_kinematic, if_pos h]
  · simp only [controller_to_physx_kinematic, if_neg h]

/-- Claim C10: the fake-kinematic controller of the non-physics harness
adds every drained Translation event to the transform's translation and
then clamps on the absolute position: exactly when the resulting Y is
strictly below `0.0` it sets the Y to `0.0` and clears `jumping`; the
floor is the fixed `0.0` (a resulting Y of `0.3`, below the PhysX
adapter's min height of `1.0`, is left alone), and a resulting Y of
exactly `0.0` changes neither the position nor `jumping`. -/
theorem c10_fake_kinematic_floor :
    (∀ (events : List Vec3) (transform : Transform)
        (ctrl : CharacterController),
      (controller_to_kinematic events transform ctrl).1.translation.x =
        (events.foldl (fun acc e => acc + e) transform.translation).x ∧
      (controller_to_kinematic events transform ctrl).1.translation.z =
        (events.foldl (fun acc e => acc + e) transform.translation).z ∧
      (controller_to_kinematic events transform ctrl).1.translation.y =
        (if (events.foldl (fun acc e => acc + e) transform.translation).y < 0
          then 0
          else (events.foldl (fun acc e => acc + e) transform.translation).y) ∧
      (controller_to_kinematic events transform ctrl).2.jumping =
        (if (events.foldl (fun acc e => acc + e) transform.translation).y < 0
          then false else ctrl.jumping) ∧
      (controller_to_kinematic events transform ctrl).2.velocity =
        ctrl.velocity ∧
      (controller_to_kinematic events transform ctrl).1.rotation =
        transform.rotation) ∧
    controller_to_kinematic [⟨0, 3/10, 0⟩] ⟨Vec3.zero, Quat.raw 0⟩
        ⟨Vec3.zero, true⟩ =
      (⟨⟨0, 3/10, 0⟩, Quat.raw 0⟩, ⟨Vec3.zero, true⟩) ∧
    controller_to_kinematic [⟨0, -1, 0⟩] ⟨⟨0, 1, 0⟩, Quat.raw 0⟩
        ⟨Vec3.zero, true⟩ =
      (⟨⟨0, 0, 0⟩, Quat.raw 0⟩, ⟨Vec3.zero, true⟩) := by
  refine ⟨?_, ?_, ?_⟩
  · intro events transform ctrl
    by_cases h :
        (events.foldl (fun acc e => acc + e) transform.translation).y < 0
    · refine ⟨?_, ?_, ?_, ?_, ?_, ?_⟩ <;>
        simp only [controller_to_kinematic, if_pos h]
    · refine ⟨?_, ?_, ?_, ?_, ?_, ?_⟩ <;>
        simp only [controller_to_kinematic, if_neg h]
  · norm_num [controller_to_kinematic, Vec3.zero]
  · norm_num [controller_to_kinematic, Vec3.zero]

end PhysXExample
